import Mathlib

/-!
Shallow embedding of the page-editing state machine, the ToDo status
overlay and the HTTP gateway interceptor of the sheetapp frontend
(PageView.js, TodoView.js, services/api.js), together with proofs of the
specification claims about them.

Primitive JavaScript values that appear in the tabular data (row/column
ids, cell contents) are modelled by `JsVal`; arbitrary JSON response
bodies (server error payloads) by `JsonV`. React useState cells become
fields of explicit state records, and every event handler becomes a pure
function from state (plus the outcome of any awaited network call) to
state, emitted notifications and emitted gateway calls.
-/

set_option maxHeartbeats 1000000

namespace SheetApp

/-- Primitive JavaScript values flowing through the table data: null,
undefined, strings and numbers. -/
inductive JsVal where
  | null : JsVal
  | undefined : JsVal
  | str (s : String) : JsVal
  | num (n : Int) : JsVal
  deriving Repr, DecidableEq

/-- JavaScript truthiness on primitive values: null, undefined, the empty
string and the number 0 are falsy. -/
def JsVal.truthy : JsVal → Bool
  | .null => false
  | .undefined => false
  | .str s => s ≠ ""
  | .num n => n ≠ 0

/-- The JavaScript expression a || b on primitive values. -/
def jsValOr (a b : JsVal) : JsVal := if a.truthy then a else b

/-- JSON-ish JavaScript values for response bodies: primitives, arrays
and objects (objects as ordered field lists, later duplicate keys
shadowing earlier ones as after JSON.parse). -/
inductive JsonV where
  | null : JsonV
  | undefined : JsonV
  | str (s : String) : JsonV
  | num (n : Int) : JsonV
  | arr (items : List JsonV) : JsonV
  | obj (fields : List (String × JsonV)) : JsonV

/-- JavaScript truthiness on `JsonV`: arrays and objects are always
truthy. -/
def jsTruthy : JsonV → Bool
  | .null => false
  | .undefined => false
  | .str s => s ≠ ""
  | .num n => n ≠ 0
  | .arr _ => true
  | .obj _ => true

/-- The JavaScript expression a || b. -/
def jsOr (a b : JsonV) : JsonV := if jsTruthy a then a else b

/-- Property access v.k: field lookup on objects (last duplicate key
wins), undefined on every other value. -/
def jsField (v : JsonV) (k : String) : JsonV :=
  match v with
  | .obj fields => ((fields.reverse.find? (fun p => p.1 = k)).map Prod.snd).getD .undefined
  | _ => .undefined

/-- The JavaScript array assignment l[i] = v on a cells array: in-range
indices are overwritten, an out-of-range index extends the array, padding
the gap with holes (undefined). -/
def jsArraySet (l : List JsVal) (i : Nat) (v : JsVal) : List JsVal :=
  if i < l.length then l.set i v
  else l ++ List.replicate (i - l.length) JsVal.undefined ++ [v]

/-- One level of Array.prototype.flat. -/
def jsFlatOne (l : List JsonV) : List JsonV :=
  l.flatMap fun v => match v with
    | .arr xs => xs
    | x => [x]

/-- The string elements of a list of values (the filter
msg => typeof msg === 'string', reading off the strings). -/
def jsStringsOf (l : List JsonV) : List String :=
  l.filterMap fun v => match v with
    | .str s => some s
    | _ => none

/-! ### Data model (section 3 of the spec, as fetched from the REST API) -/

/-- A column of a Page as delivered by GET /pages/slug/data/. -/
structure Column where
  id : JsVal
  name : String
  order : Int
  width : Int
  deriving Repr, DecidableEq

/-- A row of a Page: optional id (JsVal.null for unsaved rows), an order
index and positionally aligned cell values. -/
structure Row where
  id : JsVal
  order : Int
  cells : List JsVal
  deriving Repr, DecidableEq

/-- A Page as held in pageData/editData: display name plus columns and
rows. -/
structure Page where
  name : String
  columns : List Column
  rows : List Row
  deriving Repr, DecidableEq

/-- JSON round-trip normalisation of a cell value: JSON.stringify turns a
hole or undefined array element into null; every other cell value in the
model survives unchanged. -/
def jsonCell (v : JsVal) : JsVal :=
  match v with
  | .undefined => .null
  | x => x

/-- The deep copy JSON.parse(JSON.stringify(page)) used throughout
PageView: structurally the identity except that undefined cell entries
become null. -/
def deepCopyPage (p : Page) : Page :=
  { p with rows := p.rows.map fun r => { r with cells := r.cells.map jsonCell } }

/-! ### Notifications and gateway calls -/

/-- A notification pushed through addNotification: message (a JS value,
since save failures may push server-supplied payload text) and severity
tag. Durations are not modelled. -/
structure Notif where
  message : JsonV
  severity : String

/-- The payload built by handleSaveChanges from editData. -/
structure SavePayload where
  columns : List Column
  rows : List Row
  deriving Repr, DecidableEq

/-- Outgoing calls to the Remote Data Gateway observable from the
handlers. -/
inductive ApiCall where
  | savePageData (payload : SavePayload) : ApiCall
  | getPageData : ApiCall
  | updateTodoStatus (rowId : JsVal) (status : String) : ApiCall
  deriving Repr, DecidableEq

/-! ### PageView state and handlers -/

/-- The useState cells of PageView plus the context flags it drives
(isEditing, canEdit, isLoadingSave). pageData is the canonical fetched
Page, editData the EditBuffer. -/
structure PVState where
  pageData : Option Page
  editData : Option Page
  isEditing : Bool
  canEdit : Bool
  isLoadingSave : Bool
  loading : Bool
  editError : Option JsonV
  pageError : Option JsonV

/-- Result of running a handler: the successor state together with the
notifications and gateway calls it emitted. -/
structure Eff where
  state : PVState
  notifs : List Notif
  calls : List ApiCall

/-- Outcome of an awaited getPageData call, as observed by fetchData:
successful data, a cooperative abort, or an HTTP error with optional
status and response body. -/
inductive FetchOutcome where
  | ok (data : Page) : FetchOutcome
  | canceled : FetchOutcome
  | err (status : Option Nat) (data : JsonV) : FetchOutcome

/-- fetchData of PageView.js (lines 49-91): set loading, clear pageError,
await getPageData; on success store the canonical page, set the canEdit
placeholder and reset editData to a deep copy; on error derive a message
from the response body, notify, and specialise the message for 404/403
(403 also clears canEdit). The finally block clears loading. -/
def fetchData (outcome : FetchOutcome) (s : PVState) : Eff :=
  let s1 : PVState := { s with loading := true, pageError := none }
  match outcome with
  | .ok data =>
      { state := { s1 with
          pageData := some data,
          canEdit := true,
          editData := some (deepCopyPage data),
          loading := false },
        notifs := [],
        calls := [.getPageData] }
  | .canceled =>
      { state := { s1 with loading := false }, notifs := [], calls := [.getPageData] }
  | .err status data =>
      let errorMsg := jsOr (jsOr (jsField data "detail") (jsField data "error"))
        (.str "Could not load page data.")
      let s2 : PVState := { s1 with pageError := some errorMsg }
      let s3 : PVState :=
        if status = some 404 then { s2 with pageError := some (.str "Page not found.") }
        else s2
      let s4 : PVState :=
        if status = some 403 then
          { s3 with
              pageError := some (.str "You do not have permission to view this page."),
              canEdit := false }
        else s3
      { state := { s4 with loading := false },
        notifs := [⟨errorMsg, "error"⟩],
        calls := [.getPageData] }

/-- handleCellChange of PageView.js (lines 196-209): gated on isEditing;
the functional update deep-copies prevData, then writes
newData.rows[rowIndex].cells[colIndex] = value when rows[rowIndex]
exists (its cells array is always truthy); otherwise it only logs a
warning, so the buffer is returned unchanged up to the JSON round-trip.
An out-of-range colIndex is NOT guarded: the array assignment extends
the cells array. -/
def handleCellChange (rowIndex colIndex : Nat) (value : JsVal) (s : PVState) : PVState :=
  if !s.isEditing then s
  else match s.editData with
    | none => s
    | some d =>
      let newData := deepCopyPage d
      match newData.rows.get? rowIndex with
      | some r =>
          { s with editData := some { newData with
              rows := newData.rows.set rowIndex { r with cells := jsArraySet r.cells colIndex value } } }
      | none => { s with editData := some newData }

/-- handleAddRow of PageView.js (lines 212-227): gated on isEditing and a
non-null editData; appends a row with null id, order
Math.max(0, ...orders) + 1 (1 when there are no rows) and one empty
string cell per column. -/
def handleAddRow (s : PVState) : PVState :=
  if !s.isEditing then s
  else match s.editData with
    | none => s
    | some d =>
      let newData := deepCopyPage d
      let newOrder : Int :=
        if newData.rows.length > 0 then (newData.rows.map Row.order).foldl max 0 + 1 else 1
      let newRow : Row :=
        { id := .null, order := newOrder,
          cells := List.replicate newData.columns.length (.str "") }
      { s with editData := some { newData with rows := newData.rows ++ [newRow] } }

/-- The strict positional renumbering rows.forEach((row, index) =>
row.order = index + 1), written with the running value index + 1. -/
def renumberFrom (n : Int) : List Row → List Row
  | [] => []
  | r :: rs => { r with order := n } :: renumberFrom (n + 1) rs

/-- handleDeleteRow of PageView.js (lines 230-243): gated on isEditing
and a non-null editData; filters out rows whose id strictly equals
rowIdToDelete, then renumbers the survivors 1..N by array position. -/
def handleDeleteRow (rowIdToDelete : JsVal) (s : PVState) : PVState :=
  if !s.isEditing then s
  else match s.editData with
    | none => s
    | some d =>
      let newData := deepCopyPage d
      { s with editData := some { newData with
          rows := renumberFrom 1 (newData.rows.filter fun r => r.id ≠ rowIdToDelete) } }

/-- The local edit operations of the EDITING mode, as dispatched from the
table UI. -/
inductive EditOp where
  | cellEdit (rowIndex colIndex : Nat) (value : JsVal) : EditOp
  | addRow : EditOp
  | deleteRow (rowId : JsVal) : EditOp

/-- Dispatch of one local edit operation to its PageView handler. -/
def applyEditOp (op : EditOp) (s : PVState) : PVState :=
  match op with
  | .cellEdit r c v => handleCellChange r c v s
  | .addRow => handleAddRow s
  | .deleteRow id => handleDeleteRow id s

/-- A whole sequence of local edit operations, applied in order. -/
def applyEditOps (ops : List EditOp) (s : PVState) : PVState :=
  ops.foldl (fun t op => applyEditOp op t) s

/-- Payload construction of handleSaveChanges (lines 117-130): columns
and rows of editData with falsy ids (null, undefined, 0, empty string)
coerced to an explicit null by id || null. -/
def mkSavePayload (d : Page) : SavePayload :=
  { columns := d.columns.map fun c =>
      { id := jsValOr c.id .null, name := c.name, order := c.order, width := c.width },
    rows := d.rows.map fun r =>
      { id := jsValOr r.id .null, order := r.order, cells := r.cells } }

/-- Error-message extraction of the catch block of handleSaveChanges
(lines 141-148): objects (arrays included) contribute their flattened
string values joined by spaces, falling back to data.detail || data.error
when truthy; a string body is used verbatim; anything else keeps the
default text. -/
def extractSaveErrorMsg (errorData : JsonV) : JsonV :=
  let dflt : JsonV := .str "Failed to save changes."
  match errorData with
  | .obj fields =>
      let messages := jsStringsOf (jsFlatOne (fields.map Prod.snd))
      if messages.length > 0 then .str (String.intercalate " " messages)
      else if jsTruthy (jsOr (jsField errorData "detail") (jsField errorData "error")) then
        jsOr (jsField errorData "detail") (jsField errorData "error")
      else dflt
  | .arr items =>
      let messages := jsStringsOf (jsFlatOne items)
      if messages.length > 0 then .str (String.intercalate " " messages)
      else dflt
  | .str t => .str t
  | _ => dflt

/-- Outcome of the awaited savePageData call: an HTTP/network failure
carrying the (possibly undefined) response body, or success followed by
the re-fetch of the canonical page. -/
inductive SaveOutcome where
  | fail (errorData : JsonV) : SaveOutcome
  | ok (refetch : FetchOutcome) : SaveOutcome

/-- handleSaveChanges of PageView.js (lines 107-157): gated on isEditing
and a non-null editData; sets isLoadingSave and clears editError, builds
the payload and awaits savePageData. On success: success notification,
leave edit mode, re-fetch the canonical page. On failure: record the
extracted message as editError and notify, leaving isEditing and
editData untouched. The finally block clears isLoadingSave. -/
def handleSaveChanges (outcome : SaveOutcome) (s : PVState) : Eff :=
  if !s.isEditing then { state := s, notifs := [], calls := [] }
  else match s.editData with
    | none => { state := s, notifs := [], calls := [] }
    | some d =>
      let s1 : PVState := { s with isLoadingSave := true, editError := none }
      let payload := mkSavePayload d
      match outcome with
      | .fail errorData =>
          let errorMsg := extractSaveErrorMsg errorData
          { state := { s1 with editError := some errorMsg, isLoadingSave := false },
            notifs := [⟨errorMsg, "error"⟩],
            calls := [.savePageData payload] }
      | .ok refetch =>
          let s2 : PVState := { s1 with isEditing := false }
          let fe := fetchData refetch s2
          { state := { fe.state with isLoadingSave := false },
            notifs := ⟨.str "Page saved successfully!", "success"⟩ :: fe.notifs,
            calls := .savePageData payload :: fe.calls }

/-- The enter-edit branch of handleToggleEdit (lines 160-179), after the
initial setEditError(null): permission check with a warning notification,
then a fresh deep copy of pageData (falling back to the current editData
when pageData is null) and isEditing set. No gateway call is made. -/
def enterEdit (s : PVState) : Eff :=
  let s1 : PVState := { s with editError := none }
  if !s1.canEdit then
    { state := s1,
      notifs := [⟨.str "You do not have permission to edit this page.", "warning"⟩],
      calls := [] }
  else
    { state := { s1 with
        editData := (match s1.pageData with
          | some p => some (deepCopyPage p)
          | none => s1.editData.map deepCopyPage),
        isEditing := true },
      notifs := [], calls := [] }

/-- handleToggleEdit of PageView.js (lines 160-179): save when editing,
otherwise enter edit mode. The save outcome parameter is consumed only
on the saving branch. -/
def handleToggleEdit (outcome : SaveOutcome) (s : PVState) : Eff :=
  if s.isEditing then handleSaveChanges outcome { s with editError := none }
  else enterEdit s

/-- handleCancelEdit of PageView.js (lines 182-193): leave edit mode,
clear editError, and reset editData to a deep copy of pageData (null when
pageData is null). No gateway call is made. -/
def handleCancelEdit (s : PVState) : Eff :=
  { state := { s with
      isEditing := false,
      editError := none,
      editData := s.pageData.map deepCopyPage },
    notifs := [], calls := [] }

/-- The data shown by the table (PageView.js line 324): editData while
editing, pageData otherwise, with an empty fallback object. -/
def displayData (s : PVState) : Page :=
  (if s.isEditing then s.editData else s.pageData).getD { name := "", columns := [], rows := [] }

/-! ### ToDo Status Overlay (TodoView.js) -/

/-- One persisted status entry of a ToDo, as delivered by
GET /todos/id/: row id and status string. -/
structure StatusEntry where
  row_id : JsVal
  status : String
  deriving Repr, DecidableEq

/-- The ToDo detail consumed by TodoView: name and status entries. -/
structure TodoDetail where
  name : String
  statuses : List StatusEntry
  deriving Repr, DecidableEq

/-- A combined row of the ToDo view: a source-page row spread together
with its status. -/
structure CRow where
  id : JsVal
  order : Int
  cells : List JsVal
  status : String
  deriving Repr, DecidableEq

/-- JavaScript Map lookup over the entry list the map was built from:
later entries override earlier ones. -/
def jsMapGet (entries : List (JsVal × String)) (k : JsVal) : Option String :=
  entries.foldl (fun acc e => if e.1 = k then some e.2 else acc) none

/-- The combine step of fetchTodoData (TodoView.js lines 48-55): build
statusMap from the statuses, then give every source row the status
statusMap.get(row.id) || NOT_STARTED. -/
def combinedRows (sourceRows : List Row) (statuses : List StatusEntry) : List CRow :=
  let statusMap := statuses.map fun e => (e.row_id, e.status)
  sourceRows.map fun row =>
    { id := row.id, order := row.order, cells := row.cells,
      status := match jsMapGet statusMap row.id with
        | some t => if t = "" then "NOT_STARTED" else t
        | none => "NOT_STARTED" }

/-- Formulation of the combine step following the wording of the spec,
for comparison with `combinedRows`: status is the value keyed by the row
id in the status map, defaulting to NOT_STARTED exactly when no entry
exists (?? semantics rather than ||). -/
def specCombinedRows (sourceRows : List Row) (statuses : List StatusEntry) : List CRow :=
  let statusMap := statuses.map fun e => (e.row_id, e.status)
  sourceRows.map fun row =>
    { id := row.id, order := row.order, cells := row.cells,
      status := (jsMapGet statusMap row.id).getD "NOT_STARTED" }

/-- The combined view state of TodoView (todoDisplayData): the ToDo
detail, the source page, and the combined rows. -/
structure TodoData where
  todoInfo : TodoDetail
  sourcePage : Page
  rows : List CRow
  deriving Repr, DecidableEq

/-- The deep copy JSON.parse(JSON.stringify(todoDisplayData)) taken as
the pre-mutation snapshot: the identity except that undefined cell
entries become null. -/
def deepCopyTodoData (d : TodoData) : TodoData :=
  { d with
      sourcePage := deepCopyPage d.sourcePage,
      rows := d.rows.map fun r => { r with cells := r.cells.map jsonCell } }

/-- The useState cell of TodoView holding the combined view. -/
structure TodoState where
  todoDisplayData : Option TodoData

/-- Result of running a TodoView handler. -/
structure TodoEff where
  state : TodoState
  notifs : List Notif
  calls : List ApiCall

/-- The optimistic row update of handleStatusChange (lines 106-112):
every row whose id strictly equals rowId gets the new status, all other
rows are untouched. -/
def optimisticStatusRows (rowId : JsVal) (newStatus : String) (rows : List CRow) : List CRow :=
  rows.map fun row => if row.id = rowId then { row with status := newStatus } else row

/-- Outcome of the awaited updateTodoStatus call. -/
inductive StatusOutcome where
  | ok : StatusOutcome
  | fail (errorData : JsonV) : StatusOutcome

/-- handleStatusChange of TodoView.js (lines 97-130): no-op when no data
is loaded; otherwise take a deep-copy snapshot, apply the optimistic row
update, and await updateTodoStatus. On success keep the optimistic state
(no re-fetch) with a success notification; on failure restore the
snapshot and notify with data.detail || the default text. -/
def handleStatusChange (rowId : JsVal) (newStatus : String) (outcome : StatusOutcome)
    (s : TodoState) : TodoEff :=
  match s.todoDisplayData with
  | none => { state := s, notifs := [], calls := [] }
  | some d =>
    let previousData := deepCopyTodoData d
    let optim : TodoData := { d with rows := optimisticStatusRows rowId newStatus d.rows }
    match outcome with
    | .ok =>
        { state := { todoDisplayData := some optim },
          notifs := [⟨.str "Status updated!", "success"⟩],
          calls := [.updateTodoStatus rowId newStatus] }
    | .fail errorData =>
        let errorMsg := jsOr (jsField errorData "detail") (.str "Failed to update status.")
        { state := { todoDisplayData := some previousData },
          notifs := [⟨errorMsg, "error"⟩],
          calls := [.updateTodoStatus rowId newStatus] }

/-! ### Remote Data Gateway (services/api.js) -/

/-- Numeric value of one hexadecimal digit. -/
def hexDigitVal? (c : Char) : Option Nat :=
  if '0' ≤ c ∧ c ≤ '9' then some (c.toNat - 48)
  else if 'a' ≤ c ∧ c ≤ 'f' then some (c.toNat - 87)
  else if 'A' ≤ c ∧ c ≤ 'F' then some (c.toNat - 55)
  else none

/-- Percent-decoding of a character stream, the ASCII fragment of the
decodeURIComponent builtin applied by getCookie (multi-byte UTF-8 escape
sequences are out of scope for the cookie tokens handled here; malformed
escapes are kept verbatim). -/
def percentDecodeChars : List Char → List Char
  | [] => []
  | '%' :: a :: b :: rest =>
      match hexDigitVal? a, hexDigitVal? b with
      | some x, some y => Char.ofNat (16 * x + y) :: percentDecodeChars rest
      | _, _ => '%' :: percentDecodeChars (a :: b :: rest)
  | c :: rest => c :: percentDecodeChars rest

/-- decodeURIComponent on a cookie value (ASCII model). -/
def decodeURIComponent (s : String) : String :=
  String.mk (percentDecodeChars s.data)

/-- The JavaScript String.prototype.toUpperCase (ASCII model). -/
def jsToUpper (s : String) : String := String.mk (s.data.map Char.toUpper)

/-- The JavaScript String.prototype.split on a single separator
character: an empty string yields one empty part, as in JS. -/
def splitOnChar (sep : Char) : List Char → List (List Char)
  | [] => [[]]
  | c :: rest =>
      if c = sep then [] :: splitOnChar sep rest
      else match splitOnChar sep rest with
        | [] => [[c]]
        | h :: t => (c :: h) :: t

/-- String-level split on one character. -/
def jsSplit (sep : Char) (s : String) : List String :=
  (splitOnChar sep s.data).map String.mk

/-- The whitespace stripped by String.prototype.trim, restricted to the
characters that occur around cookie parts. -/
def isJsSpace (c : Char) : Bool :=
  c == ' ' || c == '\t' || c == '\n' || c == '\r'

/-- The JavaScript String.prototype.trim. -/
def jsTrim (s : String) : String :=
  String.mk (((s.data.dropWhile isJsSpace).reverse.dropWhile isJsSpace).reverse)

/-- The comparison cookie.substring(0, p.length) === p. -/
def strStartsWith (p s : String) : Bool := List.isPrefixOf p.data s.data

/-- The JavaScript cookie.substring(n) for n up to the length. -/
def strDropChars (s : String) (n : Nat) : String := String.mk (s.data.drop n)

/-- getCookie of services/api.js (lines 20-34): when document.cookie is
non-empty, split on semicolons, trim each part, and return the decoded
value of the first cookie whose text starts with name=. -/
def getCookie (name documentCookie : String) : Option String :=
  if documentCookie ≠ "" then
    (((jsSplit ';' documentCookie).map jsTrim).find? fun ck =>
        strStartsWith (name ++ "=") ck).map
      fun ck => decodeURIComponent (strDropChars ck (name.length + 1))
  else none

/-- An axios request config as seen by the request interceptor. -/
structure ReqConfig where
  method : Option String
  url : String
  headers : List (String × String)
  deriving Repr, DecidableEq

/-- JavaScript object property assignment headers[k] = v: overwrite the
existing entry or append a new one. -/
def setHeader (hs : List (String × String)) (k v : String) : List (String × String) :=
  if hs.any fun p => p.1 = k then hs.map fun p => if p.1 = k then (k, v) else p
  else hs ++ [(k, v)]

/-- JavaScript truthiness of the getCookie result (string or null): null
and the empty string are falsy. This is the test if (csrfToken) of the
interceptor. -/
def cookieTruthy : Option String → Bool
  | some t => t ≠ ""
  | none => false

/-- The axios request interceptor of services/api.js (lines 39-64): for a
truthy upper-cased method outside GET/HEAD/OPTIONS/TRACE, read the
csrftoken cookie and test it for truthiness (if (csrfToken)): a truthy
token is attached as the X-CSRFToken header; a falsy one (cookie absent,
or present with an empty value) only logs a warning and lets the request
proceed unmodified. Safe methods pass through untouched. Returns the
forwarded config and the warnings logged. -/
def requestInterceptor (documentCookie : String) (config : ReqConfig) :
    ReqConfig × List String :=
  match config.method.map jsToUpper with
  | some m =>
      if m ≠ "" ∧ ¬ (["GET", "HEAD", "OPTIONS", "TRACE"].contains m) then
        let csrfToken := getCookie "csrftoken" documentCookie
        if cookieTruthy csrfToken then
          ({ config with
              headers := setHeader config.headers "X-CSRFToken" (csrfToken.getD "") }, [])
        else (config, ["CSRF token not found in cookies for request."])
      else (config, [])
  | none => (config, [])

/-- Modelled from the spec: the backend save endpoint is not part of the
provided sources (only the frontend consumes it); per the data model, a
Row or Column id is null/absent exactly when the item is newly created
client-side and unsaved, so the backend treats a payload item whose id
is null as a newly created item. -/
def backendTreatsAsNewItem (id : JsVal) : Bool :=
  match id with
  | .null => true
  | _ => false

/-! ### Concrete sample values used by witnesses and counterexamples -/

/-- The page of the spec scenario: columns A and B, one saved row with
cells x and y. -/
def samplePage : Page :=
  { name := "Sample",
    columns := [⟨.num 10, "A", 1, 100⟩, ⟨.num 11, "B", 2, 100⟩],
    rows := [⟨.num 1, 1, [.str "x", .str "y"]⟩] }

/-- A PageView state in EDITING mode over `samplePage`. -/
def pvEditingSample : PVState :=
  { pageData := some samplePage, editData := some samplePage,
    isEditing := true, canEdit := true, isLoadingSave := false,
    loading := false, editError := none, pageError := none }

/-- A PageView state in VIEW mode over `samplePage`. -/
def pvViewSample : PVState :=
  { pageData := some samplePage, editData := some samplePage,
    isEditing := false, canEdit := true, isLoadingSave := false,
    loading := false, editError := none, pageError := none }

/-- The source rows of the ToDo spec scenario: ids 5 and 6. -/
def todoSampleRows : List Row := [⟨.num 5, 1, []⟩, ⟨.num 6, 2, []⟩]

/-- The status set of the ToDo spec scenario: only row 5 has a status. -/
def todoSampleStatuses : List StatusEntry := [⟨.num 5, "COMPLETED"⟩]

/-- A loaded combined ToDo view over the scenario data. -/
def todoSampleData : TodoData :=
  { todoInfo := ⟨"T", todoSampleStatuses⟩,
    sourcePage := { name := "P", columns := [], rows := todoSampleRows },
    rows := [⟨.num 5, 1, [], "COMPLETED"⟩, ⟨.num 6, 2, [], "NOT_STARTED"⟩] }

/-- The TodoView state holding `todoSampleData`. -/
def todoSampleState : TodoState := ⟨some todoSampleData⟩

/-- A mutating request config (lowercase method, as axios passes it). -/
def postCfgSample : ReqConfig :=
  ⟨some "post", "/pages/demo/save/", [("Content-Type", "application/json")]⟩

/-- A safe request config. -/
def getCfgSample : ReqConfig := ⟨some "get", "/pages/", []⟩

/-- A page whose persisted row and column both carry the numeric id 0
(a falsy id). -/
def zeroIdPage : Page :=
  { name := "Z",
    columns := [⟨.num 0, "A", 1, 50⟩],
    rows := [⟨.num 0, 1, [.str ""]⟩] }

/-! ### Preservation of the canonical page by the local handlers -/

lemma handleCellChange_pageData (r c : Nat) (v : JsVal) (s : PVState) :
    (handleCellChange r c v s).pageData = s.pageData := by
  rcases s with ⟨pd, ed, ie, ce, ls, ld, ee, pe⟩
  cases ie
  · rfl
  · rcases ed with _ | d
    · rfl
    · unfold handleCellChange
      dsimp only
      cases (deepCopyPage d).rows.get? r <;> rfl

lemma handleAddRow_pageData (s : PVState) :
    (handleAddRow s).pageData = s.pageData := by
  rcases s with ⟨pd, ed, ie, ce, ls, ld, ee, pe⟩
  cases ie
  · rfl
  · rcases ed with _ | d <;> rfl

lemma handleDeleteRow_pageData (id : JsVal) (s : PVState) :
    (handleDeleteRow id s).pageData = s.pageData := by
  rcases s with ⟨pd, ed, ie, ce, ls, ld, ee, pe⟩
  cases ie
  · rfl
  · rcases ed with _ | d <;> rfl

lemma applyEditOp_pageData (op : EditOp) (s : PVState) :
    (applyEditOp op s).pageData = s.pageData := by
  cases op with
  | cellEdit r c v => exact handleCellChange_pageData r c v s
  | addRow => exact handleAddRow_pageData s
  | deleteRow id => exact handleDeleteRow_pageData id s

lemma applyEditOps_pageData (ops : List EditOp) (s : PVState) :
    (applyEditOps ops s).pageData = s.pageData := by
  induction ops generalizing s with
  | nil => rfl
  | cons op rest ih =>
      show (applyEditOps rest (applyEditOp op s)).pageData = s.pageData
      rw [ih, applyEditOp_pageData]

lemma handleSaveChanges_fail_pageData (e : JsonV) (s : PVState) :
    (handleSaveChanges (.fail e) s).state.pageData = s.pageData := by
  rcases s with ⟨pd, ed, ie, ce, ls, ld, ee, pe⟩
  cases ie
  · rfl
  · rcases ed with _ | d <;> rfl

/-- C1: while in EDITING mode, no sequence of cellEdit/addRow/deleteRow
operations ever changes the canonical Page held in pageData; a failed
save, cancel and enterEdit also leave it untouched, and only a
successful save followed by the re-fetch replaces it (with the re-fetched
page). -/
theorem canonical_page_only_changes_by_save_refetch :
    (∀ (ops : List EditOp) (s : PVState), (applyEditOps ops s).pageData = s.pageData) ∧
    (∀ (e : JsonV) (s : PVState), (handleSaveChanges (.fail e) s).state.pageData = s.pageData) ∧
    (∀ s : PVState, (handleCancelEdit s).state.pageData = s.pageData) ∧
    (∀ s : PVState, (enterEdit s).state.pageData = s.pageData) ∧
    (∀ (s : PVState) (p : Page),
       (handleSaveChanges (.ok (.ok p)) s).state.pageData = s.pageData ∨
       (handleSaveChanges (.ok (.ok p)) s).state.pageData = some p) ∧
    (∀ (s : PVState) (st : Option Nat) (e : JsonV),
       (handleSaveChanges (.ok (.err st e)) s).state.pageData = s.pageData) := by
  refine ⟨applyEditOps_pageData, handleSaveChanges_fail_pageData, fun s => rfl, ?_, ?_, ?_⟩
  · intro s
    rcases s with ⟨pd, ed, ie, ce, ls, ld, ee, pe⟩
    cases ce <;> rfl
  · intro s p
    rcases s with ⟨pd, ed, ie, ce, ls, ld, ee, pe⟩
    cases ie
    · exact Or.inl rfl
    · rcases ed with _ | d
      · exact Or.inl rfl
      · exact Or.inr rfl
  · intro s st e
    rcases s with ⟨pd, ed, ie, ce, ls, ld, ee, pe⟩
    cases ie
    · rfl
    · rcases ed with _ | d
      · rfl
      · unfold handleSaveChanges fetchData
        dsimp only
        split_ifs <;> rfl

/-- C2: a save whose gateway call fails leaves the machine in EDITING,
keeps the EditBuffer deep-equal to its pre-save value, records the
extracted error message in editError, and emits exactly one error
notification carrying that message. -/
theorem save_failure_preserves_edit_buffer (s : PVState) (d : Page) (e : JsonV)
    (hEdit : s.isEditing = true) (hData : s.editData = some d) :
    ((handleSaveChanges (.fail e) s).state.isEditing = true) ∧
    ((handleSaveChanges (.fail e) s).state.editData = some d) ∧
    ((handleSaveChanges (.fail e) s).state.editError = some (extractSaveErrorMsg e)) ∧
    ((handleSaveChanges (.fail e) s).state.isLoadingSave = false) ∧
    ((handleSaveChanges (.fail e) s).notifs = [⟨extractSaveErrorMsg e, "error"⟩]) := by
  rcases s with ⟨pd, ed, ie, ce, ls, ld, ee, pe⟩
  cases hEdit
  cases hData
  exact ⟨rfl, rfl, rfl, rfl, rfl⟩

/-- Witness for C2: the scenario save with a mocked gateway failure on
the sample editing state. -/
theorem save_failure_preserves_edit_buffer_witness :
    ((handleSaveChanges (.fail (.str "boom")) pvEditingSample).state.isEditing = true) ∧
    ((handleSaveChanges (.fail (.str "boom")) pvEditingSample).state.editData = some samplePage) ∧
    ((handleSaveChanges (.fail (.str "boom")) pvEditingSample).state.editError =
      some (extractSaveErrorMsg (.str "boom"))) ∧
    ((handleSaveChanges (.fail (.str "boom")) pvEditingSample).state.isLoadingSave = false) ∧
    ((handleSaveChanges (.fail (.str "boom")) pvEditingSample).notifs =
      [⟨extractSaveErrorMsg (.str "boom"), "error"⟩]) :=
  save_failure_preserves_edit_buffer pvEditingSample samplePage (.str "boom") rfl rfl

lemma renumberFrom_length (n : Int) (l : List Row) :
    (renumberFrom n l).length = l.length := by
  induction l generalizing n with
  | nil => rfl
  | cons r rs ih => simp [renumberFrom, ih]

lemma renumberFrom_id_of_mem {n : Int} {l : List Row} {r : Row}
    (h : r ∈ renumberFrom n l) : ∃ r0 ∈ l, r.id = r0.id := by
  induction l generalizing n with
  | nil => cases h
  | cons r0 rs ih =>
      rw [renumberFrom] at h
      rcases List.mem_cons.1 h with h1 | h1
      · subst h1
        exact ⟨r0, List.mem_cons_self r0 rs, rfl⟩
      · obtain ⟨r1, hr1, hid⟩ := ih h1
        exact ⟨r1, List.mem_cons_of_mem r0 hr1, hid⟩

lemma renumberFrom_get (l : List Row) (n : Int) (i : Nat)
    (h : i < (renumberFrom n l).length) :
    ((renumberFrom n l).get ⟨i, h⟩).order = n + i := by
  induction l generalizing n i with
  | nil => simp [renumberFrom] at h
  | cons r rs ih =>
      cases i with
      | zero => simp [renumberFrom]
      | succ j =>
          have hj : j < (renumberFrom (n + 1) rs).length := by
            simpa [renumberFrom] using h
          have := ih (n + 1) j hj
          simp only [renumberFrom, List.get_cons_succ, this]
          push_cast
          ring

/-- C3: deleteRow in EDITING mode leaves no row with the deleted id in
the EditBuffer, and renumbers the surviving rows so that their order
fields are exactly 1..N by array position. -/
theorem deleteRow_removes_and_renumbers (s : PVState) (d : Page) (rowId : JsVal)
    (hEdit : s.isEditing = true) (hData : s.editData = some d) :
    ∃ e : Page, (handleDeleteRow rowId s).editData = some e ∧
      (∀ r ∈ e.rows, r.id ≠ rowId) ∧
      ∀ (i : Nat) (h : i < e.rows.length), (e.rows.get ⟨i, h⟩).order = (i : Int) + 1 := by
  rcases s with ⟨pd, ed, ie, ce, ls, ld, ee, pe⟩
  cases hEdit
  cases hData
  refine ⟨_, rfl, ?_, ?_⟩
  · intro r hr
    obtain ⟨r0, hr0, hid⟩ := renumberFrom_id_of_mem hr
    have hp := List.of_mem_filter hr0
    rw [hid]
    simpa using hp
  · intro i h
    rw [renumberFrom_get]
    omega

/-- Witness for C3: deleting the saved row of the sample page. -/
theorem deleteRow_removes_and_renumbers_witness :
    ∃ e : Page, (handleDeleteRow (.num 1) pvEditingSample).editData = some e ∧
      (∀ r ∈ e.rows, r.id ≠ JsVal.num 1) ∧
      ∀ (i : Nat) (h : i < e.rows.length), (e.rows.get ⟨i, h⟩).order = (i : Int) + 1 :=
  deleteRow_removes_and_renumbers pvEditingSample samplePage (.num 1) rfl rfl

lemma addRow_order_formula (rows : List Row) :
    (if rows.length > 0 then (rows.map Row.order).foldl max 0 + 1 else 1) =
      (rows.map Row.order).foldl max 0 + 1 := by
  cases rows with
  | nil => simp
  | cons r rs => simp

/-- C7: addRow in EDITING mode appends exactly one row with null id,
order one more than the maximum of the existing orders and 0 (hence 1 on
an empty row list), and one empty-string cell per column; all
pre-existing rows are unchanged. -/
theorem addRow_appends_fresh_row (s : PVState) (d : Page)
    (hEdit : s.isEditing = true) (hData : s.editData = some d)
    (hClean : deepCopyPage d = d) :
    ∃ r : Row,
      (handleAddRow s).editData = some { d with rows := d.rows ++ [r] } ∧
      r.id = JsVal.null ∧
      r.order = (d.rows.map Row.order).foldl max 0 + 1 ∧
      (d.rows = [] → r.order = 1) ∧
      r.cells = List.replicate d.columns.length (JsVal.str "") := by
  rcases s with ⟨pd, ed, ie, ce, ls, ld, ee, pe⟩
  cases hEdit
  cases hData
  refine ⟨{ id := .null,
            order := if (deepCopyPage d).rows.length > 0 then
              (((deepCopyPage d).rows.map Row.order).foldl max 0) + 1 else 1,
            cells := List.replicate (deepCopyPage d).columns.length (.str "") }, ?_, rfl, ?_, ?_, ?_⟩
  · show (handleAddRow _).editData = _
    unfold handleAddRow
    dsimp only
    rw [hClean]
    rfl
  · dsimp only
    rw [hClean]
    exact addRow_order_formula d.rows
  · intro hnil
    dsimp only
    rw [hClean, hnil]
    rfl
  · rw [hClean]

/-- Witness for C7: the spec scenario addRow on the sample page appends
the row with null id, order 2 and two empty cells. -/
theorem addRow_appends_fresh_row_witness :
    ∃ r : Row,
      (handleAddRow pvEditingSample).editData = some { samplePage with rows := samplePage.rows ++ [r] } ∧
      r.id = JsVal.null ∧
      r.order = (samplePage.rows.map Row.order).foldl max 0 + 1 ∧
      (samplePage.rows = [] → r.order = 1) ∧
      r.cells = List.replicate samplePage.columns.length (JsVal.str "") :=
  addRow_appends_fresh_row pvEditingSample samplePage rfl rfl rfl

lemma enterEdit_pageData (s : PVState) : (enterEdit s).state.pageData = s.pageData := by
  rcases s with ⟨pd, ed, ie, ce, ls, ld, ee, pe⟩
  cases ce <;> rfl

/-- C8: after enterEdit and any sequence of local edit operations,
cancel leaves edit mode, keeps the canonical Page, resets the EditBuffer
to a deep copy of it, makes the displayed data exactly the last fetched
canonical Page, and performs no network call (nor does enterEdit). -/
theorem cancel_restores_canonical_view (s : PVState) (p : Page) (ops : List EditOp)
    (hPage : s.pageData = some p) :
    ((handleCancelEdit (applyEditOps ops (enterEdit s).state)).state.isEditing = false) ∧
    ((handleCancelEdit (applyEditOps ops (enterEdit s).state)).state.pageData = some p) ∧
    ((handleCancelEdit (applyEditOps ops (enterEdit s).state)).state.editData =
      some (deepCopyPage p)) ∧
    (displayData (handleCancelEdit (applyEditOps ops (enterEdit s).state)).state = p) ∧
    ((handleCancelEdit (applyEditOps ops (enterEdit s).state)).calls = []) ∧
    ((enterEdit s).calls = []) := by
  have hp2 : (applyEditOps ops (enterEdit s).state).pageData = some p := by
    rw [applyEditOps_pageData, enterEdit_pageData, hPage]
  refine ⟨rfl, ?_, ?_, ?_, rfl, ?_⟩
  · show (applyEditOps ops (enterEdit s).state).pageData = some p
    exact hp2
  · show (applyEditOps ops (enterEdit s).state).pageData.map deepCopyPage = _
    rw [hp2]
    rfl
  · show (if false then _ else (applyEditOps ops (enterEdit s).state).pageData).getD _ = p
    rw [if_neg (by simp), hp2]
    rfl
  · rcases s with ⟨pd, ed, ie, ce, ls, ld, ee, pe⟩
    cases ce <;> rfl

/-- Witness for C8: cancelling after entering edit mode and adding a row
on the sample view state. -/
theorem cancel_restores_canonical_view_witness :
    ((handleCancelEdit (applyEditOps [.addRow] (enterEdit pvViewSample).state)).state.isEditing = false) ∧
    ((handleCancelEdit (applyEditOps [.addRow] (enterEdit pvViewSample).state)).state.pageData =
      some samplePage) ∧
    ((handleCancelEdit (applyEditOps [.addRow] (enterEdit pvViewSample).state)).state.editData =
      some (deepCopyPage samplePage)) ∧
    (displayData (handleCancelEdit (applyEditOps [.addRow] (enterEdit pvViewSample).state)).state =
      samplePage) ∧
    ((handleCancelEdit (applyEditOps [.addRow] (enterEdit pvViewSample).state)).calls = []) ∧
    ((enterEdit pvViewSample).calls = []) :=
  cancel_restores_canonical_view pvViewSample samplePage [.addRow] rfl

lemma jsArraySet_length (l : List JsVal) (i : Nat) (v : JsVal) :
    (jsArraySet l i v).length = max l.length (i + 1) := by
  unfold jsArraySet
  split
  · simp only [List.length_set]
    omega
  · simp only [List.length_append, List.length_replicate, List.length_cons, List.length_nil]
    omega

lemma jsArraySet_get_self (l : List JsVal) (i : Nat) (v : JsVal) :
    (jsArraySet l i v).get? i = some v := by
  unfold jsArraySet
  split
  · exact List.get?_set_eq_of_lt v (by assumption)
  · rename_i h
    have hle : l.length ≤ i := by omega
    have hlen : (l ++ List.replicate (i - l.length) JsVal.undefined).length = i := by
      simp only [List.length_append, List.length_replicate]
      omega
    rw [List.get?_append_right (by omega)]
    rw [hlen]
    simp

lemma jsArraySet_get_ne_lt (l : List JsVal) (i : Nat) (v : JsVal) (k : Nat)
    (hk : k ≠ i) (hlt : k < l.length) :
    (jsArraySet l i v).get? k = l.get? k := by
  unfold jsArraySet
  split
  · exact List.get?_set_ne v l (Ne.symm hk)
  · rw [List.get?_append
      (show k < (l ++ List.replicate (i - l.length) JsVal.undefined).length by
        simp only [List.length_append, List.length_replicate]; omega)]
    exact List.get?_append hlt

lemma jsArraySet_get_pad (l : List JsVal) (i : Nat) (v : JsVal) (k : Nat)
    (hk : k ≠ i) (hge : l.length ≤ k) (hlt : k < (jsArraySet l i v).length) :
    (jsArraySet l i v).get? k = some JsVal.undefined := by
  rw [jsArraySet_length] at hlt
  unfold jsArraySet
  split
  · exfalso
    omega
  · have hki : k < i := by omega
    rw [List.get?_append
      (show k < (l ++ List.replicate (i - l.length) JsVal.undefined).length by
        simp only [List.length_append, List.length_replicate]; omega)]
    rw [List.get?_append_right hge]
    rw [List.get?_eq_getElem?]
    exact List.getElem?_replicate_of_lt (by omega)

/-- Counterexample to C4 as stated: on the sample editing state (one row
with two cells), a cellEdit at in-bounds rowIndex 0 and out-of-bounds
colIndex 5 changes the EditBuffer instead of leaving it unchanged. -/
theorem cellEdit_oob_col_counterexample :
    (handleCellChange 0 5 (.str "v") pvEditingSample).editData ≠ pvEditingSample.editData := by
  decide

/-- C4 (amended): cellEdit is a defensive warning-only no-op exactly for
an out-of-bounds rowIndex; for an in-bounds rowIndex it writes value at
cells[colIndex] even when colIndex is out of bounds, extending the cells
array with undefined holes up to colIndex; only row rowIndex is affected,
and within it only position colIndex. -/
theorem cellEdit_bounds_behavior (s : PVState) (d : Page) (r c : Nat) (v : JsVal)
    (hEdit : s.isEditing = true) (hData : s.editData = some d)
    (hClean : deepCopyPage d = d) :
    (d.rows.length ≤ r → handleCellChange r c v s = s) ∧
    (∀ row : Row, d.rows.get? r = some row →
      ∃ e : Page, (handleCellChange r c v s).editData = some e ∧
        e.name = d.name ∧ e.columns = d.columns ∧
        e.rows.length = d.rows.length ∧
        (∀ j : Nat, j ≠ r → e.rows.get? j = d.rows.get? j) ∧
        ∃ row2 : Row, e.rows.get? r = some row2 ∧
          row2.id = row.id ∧ row2.order = row.order ∧
          row2.cells.length = max row.cells.length (c + 1) ∧
          row2.cells.get? c = some v ∧
          (∀ k : Nat, k ≠ c → k < row.cells.length → row2.cells.get? k = row.cells.get? k) ∧
          (∀ k : Nat, k ≠ c → row.cells.length ≤ k → k < row2.cells.length →
            row2.cells.get? k = some JsVal.undefined)) := by
  rcases s with ⟨pd, ed, ie, ce, ls, ld, ee, pe⟩
  cases hEdit
  cases hData
  constructor
  · intro hob
    show (handleCellChange r c v _) = _
    unfold handleCellChange
    dsimp only
    rw [hClean, List.get?_eq_none.2 hob]
    rfl
  · intro row hrow
    obtain ⟨hlt, -⟩ := List.get?_eq_some.1 hrow
    refine ⟨{ d with rows := d.rows.set r { row with cells := jsArraySet row.cells c v } },
      ?_, rfl, rfl, by simp, ?_,
      ⟨{ row with cells := jsArraySet row.cells c v }, ?_, rfl, rfl,
        jsArraySet_length row.cells c v, jsArraySet_get_self row.cells c v, ?_, ?_⟩⟩
    · show (handleCellChange r c v _).editData = _
      unfold handleCellChange
      dsimp only
      rw [hClean, hrow]
      rfl
    · intro j hj
      exact List.get?_set_ne _ _ (Ne.symm hj)
    · exact List.get?_set_eq_of_lt _ hlt
    · intro k hk hklt
      exact jsArraySet_get_ne_lt row.cells c v k hk hklt
    · intro k hk hge hlt2
      exact jsArraySet_get_pad row.cells c v k hk hge hlt2

/-- Witness for the amended C4: the out-of-bounds colIndex write on the
sample page extends the single row to six cells, padding positions 2-4
with undefined and writing v at position 5. -/
theorem cellEdit_bounds_behavior_witness :
    ∃ e : Page, (handleCellChange 0 5 (.str "v") pvEditingSample).editData = some e ∧
      e.name = samplePage.name ∧ e.columns = samplePage.columns ∧
      e.rows.length = samplePage.rows.length ∧
      (∀ j : Nat, j ≠ 0 → e.rows.get? j = samplePage.rows.get? j) ∧
      ∃ row2 : Row, e.rows.get? 0 = some row2 ∧
        row2.id = JsVal.num 1 ∧ row2.order = (1 : Int) ∧
        row2.cells.length = max 2 6 ∧
        row2.cells.get? 5 = some (JsVal.str "v") ∧
        (∀ k : Nat, k ≠ 5 → k < 2 →
          row2.cells.get? k = [JsVal.str "x", JsVal.str "y"].get? k) ∧
        (∀ k : Nat, k ≠ 5 → 2 ≤ k → k < row2.cells.length →
          row2.cells.get? k = some JsVal.undefined) :=
  (cellEdit_bounds_behavior pvEditingSample samplePage 0 5 (.str "v") rfl rfl rfl).2
    ⟨.num 1, 1, [.str "x", .str "y"]⟩ rfl

/-- C5: changeStatus applies the optimistic update (exactly the rows
whose id equals rowId get the new status) immediately; on gateway
success that optimistic state is kept with no re-fetch and a success
notification; on gateway failure the combined view is restored to the
deep-copy pre-mutation snapshot (deep-equal to the pre-call value) and
an error notification is emitted. -/
theorem changeStatus_optimistic_update_and_rollback (s : TodoState) (d : TodoData)
    (rowId : JsVal) (newStatus : String) (e : JsonV)
    (hData : s.todoDisplayData = some d) (hClean : deepCopyTodoData d = d) :
    ((handleStatusChange rowId newStatus .ok s).state.todoDisplayData =
      some { d with rows := optimisticStatusRows rowId newStatus d.rows }) ∧
    ((handleStatusChange rowId newStatus .ok s).notifs =
      [⟨.str "Status updated!", "success"⟩]) ∧
    ((handleStatusChange rowId newStatus .ok s).calls = [.updateTodoStatus rowId newStatus]) ∧
    ((handleStatusChange rowId newStatus (.fail e) s).state.todoDisplayData = some d) ∧
    ((handleStatusChange rowId newStatus (.fail e) s).notifs =
      [⟨jsOr (jsField e "detail") (.str "Failed to update status."), "error"⟩]) ∧
    ((handleStatusChange rowId newStatus (.fail e) s).calls =
      [.updateTodoStatus rowId newStatus]) ∧
    ((optimisticStatusRows rowId newStatus d.rows).length = d.rows.length) ∧
    (∀ (j : Nat) (row : CRow), d.rows.get? j = some row →
      (optimisticStatusRows rowId newStatus d.rows).get? j =
        some (if row.id = rowId then { row with status := newStatus } else row)) := by
  rcases s with ⟨td⟩
  cases hData
  refine ⟨rfl, rfl, rfl, ?_, rfl, rfl, by simp [optimisticStatusRows], ?_⟩
  · show some (deepCopyTodoData d) = some d
    rw [hClean]
  · intro j row hrow
    unfold optimisticStatusRows
    rw [List.get?_map, hrow]
    rfl

/-- Witness for C5: the spec scenario changeStatus(6, IN_PROGRESS) with
a failing gateway call restores the loaded sample combined view
exactly. -/
theorem changeStatus_optimistic_update_and_rollback_witness :
    (handleStatusChange (.num 6) "IN_PROGRESS" (.fail (.str "boom")) todoSampleState).state.todoDisplayData =
      some todoSampleData :=
  (changeStatus_optimistic_update_and_rollback todoSampleState todoSampleData
    (.num 6) "IN_PROGRESS" (.str "boom") rfl rfl).2.2.2.1

lemma jsMapGet_go (entries : List (JsVal × String)) (k : JsVal) (t : String) :
    ∀ acc : Option String,
      entries.foldl (fun acc e => if e.1 = k then some e.2 else acc) acc = some t →
      (k, t) ∈ entries ∨ acc = some t := by
  induction entries with
  | nil => intro acc h; exact Or.inr h
  | cons e rest ih =>
      intro acc h
      rcases ih _ h with hmem | hacc
      · exact Or.inl (List.mem_cons_of_mem _ hmem)
      · dsimp only at hacc
        by_cases he : e.1 = k
        · rw [if_pos he] at hacc
          obtain ⟨e1, e2⟩ := e
          cases hacc
          cases he
          exact Or.inl (List.mem_cons_self _ _)
        · rw [if_neg he] at hacc
          exact Or.inr hacc

lemma jsMapGet_mem (entries : List (JsVal × String)) (k : JsVal) (t : String)
    (h : jsMapGet entries k = some t) : (k, t) ∈ entries := by
  rcases jsMapGet_go entries k t none h with hm | hm
  · exact hm
  · exact Option.noConfusion hm

/-- C6: whenever the persisted statuses are drawn from the status
enumeration (in particular are non-empty strings), the combined view
gives every source row the status keyed by its id in the status map and
NOT_STARTED exactly when no entry exists, matching the spec formulation;
the spec scenario with rows 5 and 6 and a single COMPLETED status for
row 5 yields COMPLETED and NOT_STARTED. -/
theorem todo_overlay_combines_statuses :
    (∀ (rows : List Row) (statuses : List StatusEntry),
        (∀ en ∈ statuses, en.status ≠ "") →
        combinedRows rows statuses = specCombinedRows rows statuses) ∧
    (combinedRows todoSampleRows todoSampleStatuses =
      [⟨.num 5, 1, [], "COMPLETED"⟩, ⟨.num 6, 2, [], "NOT_STARTED"⟩]) := by
  constructor
  · intro rows statuses hne
    unfold combinedRows specCombinedRows
    dsimp only
    apply List.map_congr_left
    intro row hrmem
    cases hq : jsMapGet (statuses.map fun e => (e.row_id, e.status)) row.id with
    | none => rfl
    | some t =>
        have ht : t ≠ "" := by
          obtain ⟨en, hen, heq⟩ := List.mem_map.1 (jsMapGet_mem _ _ _ hq)
          injection heq with h1 h2
          rw [← h2]
          exact hne en hen
        simp [ht]
  · decide

/-- Witness for C6: the enum-valued scenario statuses satisfy the
hypothesis, so the implemented combine agrees with the spec formulation
on the scenario data. -/
theorem todo_overlay_combines_statuses_witness :
    combinedRows todoSampleRows todoSampleStatuses =
      specCombinedRows todoSampleRows todoSampleStatuses :=
  todo_overlay_combines_statuses.1 todoSampleRows todoSampleStatuses (by decide)

lemma setHeader_mem (hs : List (String × String)) (k v : String) :
    (k, v) ∈ setHeader hs k v := by
  unfold setHeader
  split
  · rename_i h
    obtain ⟨p, hp, hpk⟩ := List.any_eq_true.1 h
    have hk : p.1 = k := by simpa using hpk
    refine List.mem_map.2 ⟨p, hp, ?_⟩
    simp [hk]
  · exact List.mem_append_right _ (by simp)

/-- Counterexample to C9 as stated: with a csrftoken cookie that is
present but has an empty value, a mutating request is NOT given the
X-CSRFToken header: the truthiness check if (csrfToken) treats the empty
string as falsy, so the interceptor only warns and forwards the config
unmodified. -/
theorem gateway_csrf_empty_cookie_counterexample :
    (getCookie "csrftoken" "csrftoken=; theme=dark" = some "") ∧
    ((requestInterceptor "csrftoken=; theme=dark" postCfgSample).1 = postCfgSample) ∧
    ((requestInterceptor "csrftoken=; theme=dark" postCfgSample).1.headers.all
      fun p => p.1 ≠ "X-CSRFToken") ∧
    ((requestInterceptor "csrftoken=; theme=dark" postCfgSample).2 ≠ []) := by
  decide

/-- C9 (amended): the request interceptor attaches X-CSRFToken with the
value of the csrftoken cookie to every mutating request
(POST/PUT/PATCH/DELETE) when the cookie is readable with a non-empty
(truthy) value; safe methods (GET/HEAD/OPTIONS) pass through completely
untouched; and a mutating request whose csrftoken cookie is absent or
has an empty value proceeds unmodified with only a warning logged. -/
theorem gateway_csrf_header_policy (documentCookie : String) (cfg : ReqConfig) (m : String)
    (hm : cfg.method = some m) :
    ((jsToUpper m ∈ (["POST", "PUT", "PATCH", "DELETE"] : List String)) →
      (∀ t : String, t ≠ "" → getCookie "csrftoken" documentCookie = some t →
        (requestInterceptor documentCookie cfg).1.headers = setHeader cfg.headers "X-CSRFToken" t ∧
        ("X-CSRFToken", t) ∈ (requestInterceptor documentCookie cfg).1.headers ∧
        (requestInterceptor documentCookie cfg).1.method = cfg.method ∧
        (requestInterceptor documentCookie cfg).1.url = cfg.url ∧
        (requestInterceptor documentCookie cfg).2 = []) ∧
      ((getCookie "csrftoken" documentCookie = none ∨
        getCookie "csrftoken" documentCookie = some "") →
        (requestInterceptor documentCookie cfg).1 = cfg ∧
        (requestInterceptor documentCookie cfg).2 ≠ [])) ∧
    ((jsToUpper m ∈ (["GET", "HEAD", "OPTIONS"] : List String)) →
      (requestInterceptor documentCookie cfg).1 = cfg ∧
      (requestInterceptor documentCookie cfg).2 = []) := by
  have hint : requestInterceptor documentCookie cfg =
      (if jsToUpper m ≠ "" ∧
          ¬ ((["GET", "HEAD", "OPTIONS", "TRACE"] : List String).contains (jsToUpper m)) then
        (if cookieTruthy (getCookie "csrftoken" documentCookie) then
          ({ cfg with headers := (setHeader cfg.headers "X-CSRFToken" ((getCookie "csrftoken" documentCookie).getD "")) }, [])
        else (cfg, ["CSRF token not found in cookies for request."]))
      else (cfg, [])) := by
    unfold requestInterceptor
    rw [hm]
    rfl
  constructor
  · intro hmut
    have hcond : jsToUpper m ≠ "" ∧
        ¬ ((["GET", "HEAD", "OPTIONS", "TRACE"] : List String).contains (jsToUpper m)) := by
      simp only [List.mem_cons, List.not_mem_nil, or_false] at hmut
      rcases hmut with h | h | h | h <;> rw [h] <;> exact ⟨by decide, by decide⟩
    constructor
    · intro t htne ht
      have htruthy : cookieTruthy (getCookie "csrftoken" documentCookie) = true := by
        rw [ht]
        simpa [cookieTruthy] using htne
      rw [hint, if_pos hcond, if_pos htruthy, ht]
      exact ⟨rfl, setHeader_mem cfg.headers "X-CSRFToken" t, rfl, rfl, rfl⟩
    · intro hfalsy
      have hfals : cookieTruthy (getCookie "csrftoken" documentCookie) = false := by
        rcases hfalsy with h | h <;> rw [h] <;> rfl
      rw [hint, if_pos hcond, if_neg (by rw [hfals]; exact Bool.false_ne_true)]
      exact ⟨rfl, by simp⟩
  · intro hsafe
    have hcond : ¬ (jsToUpper m ≠ "" ∧
        ¬ ((["GET", "HEAD", "OPTIONS", "TRACE"] : List String).contains (jsToUpper m))) := by
      simp only [List.mem_cons, List.not_mem_nil, or_false] at hsafe
      rcases hsafe with h | h | h <;> rw [h] <;> decide
    rw [hint, if_neg hcond]
    exact ⟨rfl, rfl⟩

/-- Witness for the amended C9: a lowercase post request gets the
non-empty decoded cookie value as its X-CSRFToken header, a get request
passes through untouched, and post requests with a missing csrftoken
cookie or an empty-valued one proceed unmodified with a warning. -/
theorem gateway_csrf_header_policy_witness :
    (("X-CSRFToken", "abc123") ∈
      (requestInterceptor "csrftoken=abc123; theme=dark" postCfgSample).1.headers) ∧
    ((requestInterceptor "csrftoken=abc123; theme=dark" getCfgSample).1 = getCfgSample) ∧
    ((requestInterceptor "sessionid=99" postCfgSample).1 = postCfgSample) ∧
    ((requestInterceptor "sessionid=99" postCfgSample).2 ≠ []) ∧
    ((requestInterceptor "csrftoken=" postCfgSample).1 = postCfgSample) := by
  refine ⟨?_, ?_, ?_, ?_, ?_⟩
  · exact (((gateway_csrf_header_policy "csrftoken=abc123; theme=dark" postCfgSample "post"
      rfl).1 (by decide)).1 "abc123" (by decide) (by decide)).2.1
  · exact ((gateway_csrf_header_policy "csrftoken=abc123; theme=dark" getCfgSample "get"
      rfl).2 (by decide)).1
  · exact (((gateway_csrf_header_policy "sessionid=99" postCfgSample "post"
      rfl).1 (by decide)).2 (Or.inl (by decide))).1
  · exact (((gateway_csrf_header_policy "sessionid=99" postCfgSample "post"
      rfl).1 (by decide)).2 (Or.inl (by decide))).2
  · exact (((gateway_csrf_header_policy "csrftoken=" postCfgSample "post"
      rfl).1 (by decide)).2 (Or.inr (by decide))).1

/-- C10: the save payload serialization maps every falsy row or column
id (null, undefined, 0, empty string) to an explicit null via id || null
and keeps truthy ids; in particular the falsy numeric id 0 becomes null,
which marks the item as newly created under the null-id convention of
the data model. -/
theorem falsy_ids_serialize_to_null (d : Page) :
    (∀ (i : Nat) (r : Row), d.rows.get? i = some r → r.id.truthy = false →
        ((mkSavePayload d).rows.get? i).map Row.id = some JsVal.null) ∧
    (∀ (i : Nat) (c : Column), d.columns.get? i = some c → c.id.truthy = false →
        ((mkSavePayload d).columns.get? i).map Column.id = some JsVal.null) ∧
    (∀ (i : Nat) (r : Row), d.rows.get? i = some r → r.id.truthy = true →
        ((mkSavePayload d).rows.get? i).map Row.id = some r.id) ∧
    ((JsVal.num 0).truthy = false) ∧
    (jsValOr (.num 0) .null = .null) ∧
    (backendTreatsAsNewItem (jsValOr (.num 0) .null) = true) := by
  refine ⟨?_, ?_, ?_, rfl, rfl, rfl⟩
  · intro i r h hf
    dsimp only [mkSavePayload]
    rw [List.get?_map, h]
    dsimp only [Option.map]
    unfold jsValOr
    rw [hf]
    rfl
  · intro i c h hf
    dsimp only [mkSavePayload]
    rw [List.get?_map, h]
    dsimp only [Option.map]
    unfold jsValOr
    rw [hf]
    rfl
  · intro i r h ht
    dsimp only [mkSavePayload]
    rw [List.get?_map, h]
    dsimp only [Option.map]
    unfold jsValOr
    rw [ht]
    rfl

/-- Witness for C10: the persisted row and column of id 0 both serialize
with a null id. -/
theorem falsy_ids_serialize_to_null_witness :
    (((mkSavePayload zeroIdPage).rows.get? 0).map Row.id = some JsVal.null) ∧
    (((mkSavePayload zeroIdPage).columns.get? 0).map Column.id = some JsVal.null) :=
  ⟨(falsy_ids_serialize_to_null zeroIdPage).1 0 ⟨.num 0, 1, [.str ""]⟩ rfl rfl,
   (falsy_ids_serialize_to_null zeroIdPage).2.1 0 ⟨.num 0, "A", 1, 50⟩ rfl rfl⟩

end SheetApp
